import Mathlib

/-!
Verification of the retry/pipeline orchestration of the
`Open-Source-Projects` repository (`src/open_source/crew.py`, `api.py`).
The Python code is shallowly embedded: exceptions become an explicit
error type, the process environment becomes an explicit record, and the
external `crew.kickoff()` model invocation is a parameter.
-/

/-- A Python exception as observed by the handlers in `crew.py` / `api.py`:
either a `ValueError` or any other `Exception`, each carrying the text that
`str(e)` would produce. -/
inductive PyErr where
  | valueError (msg : String)
  | exception (msg : String)
deriving DecidableEq

/-- `str(e)` on an embedded exception. -/
def errMsg : PyErr → String
  | PyErr.valueError m => m
  | PyErr.exception m => m

/-- `leadsWith n h` is true iff the char list `n` is an initial segment of `h`
(the one-position check of Python substring containment). -/
def leadsWith : List Char → List Char → Bool
  | [], _ => true
  | _ :: _, [] => false
  | a :: as, b :: bs => a == b && leadsWith as bs

/-- `occursIn n h` is true iff the char list `n` occurs contiguously in `h`:
the embedding of the Python expression `n in h` on strings. -/
def occursIn (n : List Char) : List Char → Bool
  | [] => n.isEmpty
  | c :: t => leadsWith n (c :: t) || occursIn n t

/-- Python `sub in s` on strings. -/
def pyIn (sub s : String) : Bool :=
  occursIn sub.data s.data

/-- Python `s.lower()` (ASCII case folding, which covers every keyword the
code compares against). -/
def pyLower (s : String) : String :=
  ⟨s.data.map Char.toLower⟩

/-- The transient-error vocabulary of `_execute_crew` (crew.py line 116). -/
def crewKickoffTransientKeywords : List String :=
  ["overloaded", "unavailable", "503", "rate limit", "quota", "resource_exhausted"]

/-- The authentication-error vocabulary of `_execute_crew` (crew.py line 119). -/
def crewKickoffAuthKeywords : List String :=
  ["api key", "authentication", "permission", "forbidden"]

/-- The transient vocabulary of `OpenSourceCrew.run` (crew.py line 198);
unlike the `_execute_crew` list it omits `resource_exhausted`. -/
def crewRunTransientKeywords : List String :=
  ["overloaded", "unavailable", "503", "rate limit", "quota"]

/-- The transient vocabulary of the `/analyze` handler (api.py line 290). -/
def apiTransientKeywords : List String :=
  ["overloaded", "unavailable", "503", "rate limit", "quota"]

/-- The authentication vocabulary of the `/analyze` handler (api.py line 295). -/
def apiAuthKeywords : List String :=
  ["api key", "authentication", "permission", "forbidden"]

/-- `any(keyword in msg.lower() for keyword in ks)`. -/
def matchesAnyKeyword (ks : List String) (msg : String) : Bool :=
  ks.any (fun k => pyIn k (pyLower msg))

/-- Propositional form of the keyword match: some keyword of `ks` occurs
contiguously in the lower-cased message. -/
def MatchesAny (ks : List String) (msg : String) : Prop :=
  ∃ k, k ∈ ks ∧ ∃ p q, (pyLower msg).data = p ++ k.data ++ q

/-- The transient test of `_execute_crew` (crew.py line 116). -/
def isTransientMsg (m : String) : Bool :=
  matchesAnyKeyword crewKickoffTransientKeywords m

/-- The authentication test of `_execute_crew` (crew.py line 119). -/
def isAuthMsg (m : String) : Bool :=
  matchesAnyKeyword crewKickoffAuthKeywords m

/-- The transient test of `OpenSourceCrew.run` (crew.py line 198). -/
def isRunTransientMsg (m : String) : Bool :=
  matchesAnyKeyword crewRunTransientKeywords m

/-- The transient test of the `/analyze` handler (api.py line 290). -/
def isApiTransientMsg (m : String) : Bool :=
  matchesAnyKeyword apiTransientKeywords m

/-- The authentication test of the `/analyze` handler (api.py line 295). -/
def isApiAuthMsg (m : String) : Bool :=
  matchesAnyKeyword apiAuthKeywords m

/-- The three-way error classification realized by the branches of
`_execute_crew` (crew.py lines 114-122). -/
inductive ErrClass where
  | transient
  | authFailure
  | fatal
deriving DecidableEq

/-- The classification performed by `_execute_crew`: transient keywords are
tested first, then authentication keywords, else fatal. -/
def classify (m : String) : ErrClass :=
  if isTransientMsg m then ErrClass.transient
  else if isAuthMsg m then ErrClass.authFailure
  else ErrClass.fatal

/-- The `ValueError` message built by `_execute_crew` for auth failures
(crew.py line 120). -/
def authErrorMsg (m : String) : String :=
  "Authentication error: Please check your Gemini API key. Error: " ++ m

/-- `OpenSourceCrew._execute_crew` (crew.py lines 109-122), parametrized by
the outcome of the external `crew.kickoff()` call: on success the result is
returned; on failure, transient errors are re-raised unchanged, auth errors
are converted to a `ValueError`, and everything else is re-raised unchanged. -/
def execute_crew (kick : Except PyErr String) : Except PyErr String :=
  match kick with
  | Except.ok r => Except.ok r
  | Except.error e =>
      if isTransientMsg (errMsg e) then Except.error e
      else if isAuthMsg (errMsg e) then
        Except.error (PyErr.valueError (authErrorMsg (errMsg e)))
      else Except.error e

/-- The literal prefix of the service-unavailable string returned by
`OpenSourceCrew.run` (crew.py line 199). -/
def serviceUnavailablePre : String :=
  "⚠️ **Service Temporarily Unavailable**\n\nThe Gemini API is currently experiencing high load. Please try again in a few minutes.\n\nError details: "

/-- The service-unavailable string returned by `OpenSourceCrew.run` for
transient errors (crew.py line 199). -/
def serviceUnavailableMsg (m : String) : String :=
  serviceUnavailablePre ++ m

/-- The literal prefix of the generic error string returned by
`OpenSourceCrew.run` (crew.py line 201). -/
def executionErrorPre : String :=
  "❌ **An error occurred during execution**\n\nError: "

/-- The generic error string returned by `OpenSourceCrew.run` for
non-transient, non-ValueError errors (crew.py line 201). -/
def executionErrorMsg (m : String) : String :=
  executionErrorPre ++ m ++ "\n\nPlease check your API key and try again."

/-- `OpenSourceCrew.run` (crew.py lines 124-201), parametrized by the outcome
of the single external `crew.kickoff()` call it makes through
`_execute_crew`: a raised `ValueError` is re-raised; any other raised
exception is converted to a returned string (the warning string when the
message matches the five run-level transient keywords, the generic error
string otherwise). -/
def crewRunOnce (kick : Except PyErr String) : Except PyErr String :=
  match execute_crew kick with
  | Except.ok r => Except.ok r
  | Except.error (PyErr.valueError m) => Except.error (PyErr.valueError m)
  | Except.error (PyErr.exception m) =>
      if isRunTransientMsg m then Except.ok (serviceUnavailableMsg m)
      else Except.ok (executionErrorMsg m)

/-- Observable behaviour of one call to `OpenSourceCrew.run`: its outcome,
how many times it invoked `crew.kickoff()`, and the sleeps it performed. -/
structure RunTrace where
  result : Except PyErr String
  kickoffCalls : Nat
  sleeps : List Nat

/-- `OpenSourceCrew.run` driven by a call-indexed kickoff stub. The body of
`run` contains no loop and no `time.sleep` call (the `tenacity` retry
helpers and the `time` module are imported but never used), so exactly one
kickoff happens per run and the sleep log is always empty. -/
def crewRunTrace (stub : Nat → Except PyErr String) : RunTrace :=
  { result := crewRunOnce (stub 0), kickoffCalls := 1, sleeps := [] }

/-- The kickoff stub of the retry test scenario: fails with a transient
message on the first two calls, succeeds on the third. -/
def stubFailTwice (n : Nat) : Except PyErr String :=
  if n < 2 then Except.error (PyErr.exception "503 The model is overloaded")
  else Except.ok "SUCCESS"

/-- The whitespace set of Python `str.strip()` restricted to ASCII (space,
tab, newline, carriage return, vertical tab, form feed); every input the
code handles here is ASCII-whitespace-trimmed only. -/
def pyIsSpace (c : Char) : Bool :=
  c == ' ' || c == '\t' || c == '\n' || c == '\r' ||
  c == Char.ofNat 11 || c == Char.ofNat 12

/-- Python `s.strip()`: drop whitespace from both ends. -/
def pyStrip (s : String) : String :=
  ⟨(((s.data.dropWhile pyIsSpace).reverse.dropWhile pyIsSpace).reverse)⟩

/-- The `BusinessRequirementRequest` validation of api.py lines 33-48:
pydantic first enforces `min_length=10` / `max_length=2000` on the raw
string, then the field validator rejects a value that is empty (or
whitespace-only) after stripping and otherwise yields the stripped value. -/
def validateBusinessRequirement (s : String) : Option String :=
  if s.length < 10 ∨ 2000 < s.length then none
  else if s = "" ∨ pyStrip s = "" then none
  else some (pyStrip s)

/-- A string of `n` letters, used for the boundary inputs. -/
def aString (n : Nat) : String :=
  ⟨List.replicate n 'a'⟩

/-- An HTTPException as raised by the `/analyze` handler: status code plus
detail text. -/
structure HttpError where
  status : Nat
  detail : String
deriving DecidableEq

/-- `str(e)` of a starlette `HTTPException`: `f"{status_code}: {detail}"`. -/
def strOfHTTPException (st : Nat) (d : String) : String :=
  toString st ++ ": " ++ d

/-- The detail of the HTTPException raised when the crew result is empty
(api.py line 263). -/
def emptyResultDetail : String :=
  "AI analysis returned empty result. This might be due to API rate limits or connectivity issues."

/-- The 503 detail of the `/analyze` handler (api.py line 293). -/
def serviceUnavailableDetail : String :=
  "AI service is temporarily unavailable. Please try again in a few minutes."

/-- The 500 auth detail of the `/analyze` handler (api.py line 298). -/
def invalidKeyDetail : String :=
  "Server configuration error: Invalid API key configuration"

/-- The `except Exception` branch of the `/analyze` handler (api.py lines
283-304), applied to `str(e)` of the caught exception. -/
def handleGenericException (m : String) : Except HttpError String :=
  if isApiTransientMsg m then Except.error ⟨503, serviceUnavailableDetail⟩
  else if isApiAuthMsg m then Except.error ⟨500, invalidKeyDetail⟩
  else Except.error ⟨500, "An unexpected error occurred during analysis: " ++ m⟩

/-- The `/analyze` handler from the point where `crew.run()` has produced an
outcome (api.py lines 257-304). A returned result is checked for emptiness:
an empty or whitespace-only result raises `HTTPException(500, ...)` inside
the `try`, which the handler's own `except Exception` clause then catches
and remaps by keyword on its string form. A raised `ValueError` becomes a
400 response; any other raised exception goes through the keyword remap. -/
def analyzeHandle (r : Except PyErr String) : Except HttpError String :=
  match r with
  | Except.ok result =>
      if result = "" ∨ pyStrip result = "" then
        handleGenericException (strOfHTTPException 500 emptyResultDetail)
      else Except.ok result
  | Except.error (PyErr.valueError m) => Except.error ⟨400, m⟩
  | Except.error (PyErr.exception m) => handleGenericException m

/-- The `/analyze` handler composed with `OpenSourceCrew.run`, parametrized
by the outcome of the single `crew.kickoff()` call. -/
def analyzeEndpoint (kick : Except PyErr String) : Except HttpError String :=
  analyzeHandle (crewRunOnce kick)

/-- The process environment slice read and written by
`OpenSourceCrew._setup_environment`: the `GOOGLE_API_KEY` and
`GEMINI_API_KEY` variables, `none` when unset. -/
structure Env where
  google : Option String
  gemini : Option String
deriving DecidableEq

/-- Python truthiness of `os.getenv(...)` or of an optional string argument:
falsy when absent or empty. -/
def pyTruthyOpt : Option String → Bool
  | none => false
  | some s => !(s == "")

/-- `OpenSourceCrew._setup_environment` (crew.py lines 78-83): a truthy
`gemini_api_key` argument overwrites both environment variables; otherwise,
if both variables are falsy, a `ValueError` is raised; otherwise the
environment is left unchanged. -/
def setup_environment (gemini_api_key : Option String) (env : Env) :
    Except PyErr Env :=
  if pyTruthyOpt gemini_api_key then
    Except.ok { google := gemini_api_key, gemini := gemini_api_key }
  else if !pyTruthyOpt env.google && !pyTruthyOpt env.gemini then
    Except.error (PyErr.valueError "Gemini API key is required. Please provide it through the UI")
  else Except.ok env

/-- One crewai `Task` as wired in `OpenSourceCrew.run` (crew.py lines
160-180): a name, the description (prompt) text, the expected-output text,
and the names of the context tasks whose outputs it receives. -/
structure StageSpec where
  name : String
  description : String
  expected_output : String
  context : List String
deriving DecidableEq

/-- The three tasks exactly as wired in `OpenSourceCrew.run` (crew.py lines
160-184): `analyze` gets the requirement formatted into its description and
no context, `research` takes `analyze` as context, `evaluate` takes both
`analyze` and `research`. The description and expected-output texts live in
yaml files outside `src/`, so they are parameters here; only the analyze
template depends on the requirement. -/
def crewTasks (analyzeTemplate : String → String) (business_requirement : String)
    (researchDesc evaluateDesc analyzeExp researchExp evaluateExp : String) :
    List StageSpec :=
  [ ⟨"analyze", analyzeTemplate business_requirement, analyzeExp, []⟩,
    ⟨"research", researchDesc, researchExp, ["analyze"]⟩,
    ⟨"evaluate", evaluateDesc, evaluateExp, ["analyze", "research"]⟩ ]

/-- The prior results a stage receives: the recorded outputs of the stages
it declares as context. -/
def stageContext (st : StageSpec) (results : List (String × String)) :
    List (String × String) :=
  results.filter (fun p => st.context.contains p.1)

/-- The last recorded output, which is what `crew.kickoff()` returns on
success. -/
def lastOutput (results : List (String × String)) : String :=
  match results.getLast? with
  | some p => p.2
  | none => ""

/-- Observable behaviour of one sequential pipeline execution: the stages
invoked in order, the recorded results, and the final outcome. -/
structure PipelineTrace where
  invoked : List String
  results : List (String × String)
  outcome : Except PyErr String

/-- Modelled from the spec: the sequential stage execution performed by the
external crewai framework (`Crew(..., process=Process.sequential).kickoff()`
in crew.py lines 182-191 — the framework body is not part of this
repository). Per spec section 4.3: for each stage in declared order, invoke
the external model with the stage and the outputs of its context stages,
record the result, make it visible to subsequent stages; on the first
failure abort immediately and propagate the raw failure unchanged. -/
def runSequential (invoke : StageSpec → List (String × String) → Except PyErr String) :
    List StageSpec → List (String × String) → List String → PipelineTrace
  | [], results, log => ⟨log, results, Except.ok (lastOutput results)⟩
  | st :: rest, results, log =>
      match invoke st (stageContext st results) with
      | Except.error e => ⟨log ++ [st.name], results, Except.error e⟩
      | Except.ok out =>
          runSequential invoke rest (results ++ [(st.name, out)]) (log ++ [st.name])

/-- Modelled from the spec: a full pipeline execution starting clean. -/
def runPipeline (invoke : StageSpec → List (String × String) → Except PyErr String)
    (stages : List StageSpec) : PipelineTrace :=
  runSequential invoke stages [] []

/-- A concrete three-stage chain used to exercise the pipeline model. -/
def chainStagesW : List StageSpec :=
  [ ⟨"analyze", "d1", "e1", []⟩,
    ⟨"research", "d2", "e2", ["analyze"]⟩,
    ⟨"evaluate", "d3", "e3", ["analyze", "research"]⟩ ]

/-- A model stub that fails at the `research` stage. -/
def invokeFailAtResearch : StageSpec → List (String × String) → Except PyErr String :=
  fun st _ =>
    if st.name = "research" then Except.error (PyErr.exception "boom")
    else Except.ok (st.name ++ "-out")

/-- A deterministic model stub that echoes the stage name. -/
def invokeEcho : StageSpec → List (String × String) → Except PyErr String :=
  fun st _ => Except.ok (st.name ++ "-out")

/-- `leadsWith` holds exactly on initial segments. -/
theorem leadsWith_iff (n h : List Char) :
    leadsWith n h = true ↔ ∃ q, h = n ++ q := by
  induction n generalizing h with
  | nil => simp [leadsWith]
  | cons a as ih =>
    cases h with
    | nil => simp [leadsWith]
    | cons b bs =>
      rw [leadsWith]
      simp only [Bool.and_eq_true, beq_iff_eq, ih]
      constructor
      · rintro ⟨rfl, q, rfl⟩
        exact ⟨q, rfl⟩
      · rintro ⟨q, hq⟩
        rw [List.cons_append] at hq
        injection hq with h1 h2
        exact ⟨h1.symm, q, h2⟩

/-- `occursIn` holds exactly on contiguous occurrences. -/
theorem occursIn_iff (n h : List Char) :
    occursIn n h = true ↔ ∃ p q, h = p ++ n ++ q := by
  induction h with
  | nil =>
    simp [occursIn, List.isEmpty_iff]
  | cons c t ih =>
    rw [occursIn, Bool.or_eq_true, leadsWith_iff, ih]
    constructor
    · rintro (⟨q, hq⟩ | ⟨p, q, hpq⟩)
      · exact ⟨[], q, by simpa using hq⟩
      · exact ⟨c :: p, q, by simp [hpq]⟩
    · rintro ⟨p, q, hpq⟩
      cases p with
      | nil => exact Or.inl ⟨q, by simpa using hpq⟩
      | cons x xs =>
        right
        rw [List.cons_append, List.cons_append] at hpq
        injection hpq with h1 h2
        exact ⟨xs, q, h2⟩

/-- The executable keyword test agrees with its propositional form. -/
theorem matchesAnyKeyword_iff (ks : List String) (msg : String) :
    matchesAnyKeyword ks msg = true ↔ MatchesAny ks msg := by
  rw [matchesAnyKeyword, List.any_eq_true]
  unfold MatchesAny
  constructor
  · rintro ⟨k, hk, hin⟩
    exact ⟨k, hk, (occursIn_iff _ _).mp hin⟩
  · rintro ⟨k, hk, hex⟩
    exact ⟨k, hk, (occursIn_iff _ _).mpr hex⟩

/-- Length of the boundary strings. -/
theorem aString_length (n : Nat) : (aString n).length = n := by
  simp [aString, String.length]

/-- `dropWhile` keeps a run of letters intact. -/
theorem dropWhile_replicate_a (n : Nat) :
    List.dropWhile pyIsSpace (List.replicate n 'a') = List.replicate n 'a' := by
  cases n with
  | zero => rfl
  | succ m =>
    rw [List.replicate_succ, List.dropWhile_cons]
    have h : pyIsSpace 'a' = false := rfl
    rw [h]
    simp

/-- Stripping a run of letters is the identity. -/
theorem pyStrip_aString (n : Nat) : pyStrip (aString n) = aString n := by
  unfold pyStrip aString
  rw [String.ext_iff]
  show List.reverse (List.dropWhile pyIsSpace
      (List.reverse (List.dropWhile pyIsSpace (List.replicate n 'a')))) = _
  rw [dropWhile_replicate_a, List.reverse_replicate, dropWhile_replicate_a,
    List.reverse_replicate]

/-- A nonempty run of letters is a nonempty string. -/
theorem aString_ne_empty (n : Nat) (h : 0 < n) : aString n ≠ "" := by
  simp [aString, String.ext_iff]
  omega

/-- All elements surviving `dropWhile p` satisfy `p` iff all elements do. -/
theorem dropWhile_forall_iff (p : Char → Bool) (l : List Char) :
    (∀ c ∈ l.dropWhile p, p c = true) ↔ (∀ c ∈ l, p c = true) := by
  induction l with
  | nil => simp
  | cons a t ih =>
    rw [List.dropWhile_cons]
    by_cases ha : p a = true
    · rw [if_pos ha, ih]
      constructor
      · intro h c hc
        rcases List.mem_cons.mp hc with rfl | hc
        · exact ha
        · exact h c hc
      · intro h c hc
        exact h c (List.mem_cons_of_mem _ hc)
    · rw [if_neg ha]

/-- A string strips to empty exactly when every character is whitespace. -/
theorem pyStrip_eq_empty_iff (s : String) :
    pyStrip s = "" ↔ ∀ c ∈ s.data, pyIsSpace c = true := by
  rw [pyStrip, show ("" : String) = ⟨[]⟩ from rfl, String.ext_iff]
  show (((s.data.dropWhile pyIsSpace).reverse.dropWhile pyIsSpace).reverse) = [] ↔ _
  rw [List.reverse_eq_nil_iff, List.dropWhile_eq_nil_iff]
  constructor
  · intro h
    rw [← dropWhile_forall_iff pyIsSpace s.data]
    intro c hc
    exact h c (List.mem_reverse.mpr hc)
  · intro h c hc
    exact h c ((List.dropWhile_suffix pyIsSpace).sublist.subset (List.mem_reverse.mp hc))

/-- Claim C1: the spec says a transient failure triggers sleep/backoff/retry
under the default policy, and a stub failing transiently twice then
succeeding returns the success value after two sleeps. The code contains no
retry at all: evaluated on exactly that stub, `OpenSourceCrew.run` makes a
single kickoff call, performs no sleep, and returns the service-unavailable
warning string instead of the success value. -/
theorem C1_single_attempt_no_sleep :
    (crewRunTrace stubFailTwice).result
      = Except.ok (serviceUnavailableMsg "503 The model is overloaded") ∧
    (crewRunTrace stubFailTwice).kickoffCalls = 1 ∧
    (crewRunTrace stubFailTwice).sleeps = [] ∧
    stubFailTwice 0 = Except.error (PyErr.exception "503 The model is overloaded") ∧
    stubFailTwice 1 = Except.error (PyErr.exception "503 The model is overloaded") ∧
    stubFailTwice 2 = Except.ok "SUCCESS" ∧
    classify "503 The model is overloaded" = ErrClass.transient ∧
    (crewRunTrace stubFailTwice).result ≠ Except.ok "SUCCESS" :=
  ⟨rfl, rfl, rfl, rfl, rfl, rfl, by decide,
   fun h => absurd (Except.ok.inj h) (by decide)⟩

/-- Claim C2: classification is by case-insensitive substring match on the
error message — transient when any of the six overload keywords occurs,
else auth-failure when any of the four credential keywords occurs, else
fatal. -/
theorem C2_classification_by_substring (m : String) :
    (classify m = ErrClass.transient ↔ MatchesAny crewKickoffTransientKeywords m) ∧
    (classify m = ErrClass.authFailure ↔
      (¬ MatchesAny crewKickoffTransientKeywords m ∧
        MatchesAny crewKickoffAuthKeywords m)) ∧
    (classify m = ErrClass.fatal ↔
      (¬ MatchesAny crewKickoffTransientKeywords m ∧
        ¬ MatchesAny crewKickoffAuthKeywords m)) := by
  have t := matchesAnyKeyword_iff crewKickoffTransientKeywords m
  have a := matchesAnyKeyword_iff crewKickoffAuthKeywords m
  unfold classify isTransientMsg isAuthMsg
  rcases ht : matchesAnyKeyword crewKickoffTransientKeywords m with _ | _ <;>
    rcases ha : matchesAnyKeyword crewKickoffAuthKeywords m with _ | _ <;>
      rw [ht] at t <;> rw [ha] at a <;> simp_all

/-- Claim C3: an attempt failing with an auth-classified error makes the
executor fail immediately — one kickoff call, no sleep, no retry — raising
the authentication `ValueError`. -/
theorem C3_auth_fails_immediately (m : String)
    (h : classify m = ErrClass.authFailure) :
    crewRunTrace (fun _ => Except.error (PyErr.exception m)) =
      { result := Except.error (PyErr.valueError (authErrorMsg m)),
        kickoffCalls := 1, sleeps := [] } := by
  have ht : isTransientMsg m = false := by
    by_contra hb
    rw [Bool.not_eq_false] at hb
    rw [classify, if_pos hb] at h
    exact absurd h (by decide)
  have ha : isAuthMsg m = true := by
    by_contra hb
    rw [Bool.not_eq_true] at hb
    rw [classify, if_neg (by simp [ht]), if_neg (by simp [hb])] at h
    exact absurd h (by decide)
  simp [crewRunTrace, crewRunOnce, execute_crew, errMsg, ht, ha]

/-- Witness for C3 at a concrete auth-flavored message. -/
theorem C3_auth_fails_immediately_witness :
    crewRunTrace (fun _ => Except.error (PyErr.exception "Invalid API key provided")) =
      { result := Except.error (PyErr.valueError (authErrorMsg "Invalid API key provided")),
        kickoffCalls := 1, sleeps := [] } :=
  C3_auth_fails_immediately "Invalid API key provided" (by decide)

/-- Claim C6: a message matching both the transient and the auth vocabulary
gets a single defined class — the transient check runs first — and never
falls through to fatal. -/
theorem C6_overlap_resolved_transient (m : String)
    (ht : MatchesAny crewKickoffTransientKeywords m)
    (_ha : MatchesAny crewKickoffAuthKeywords m) :
    classify m = ErrClass.transient ∧ classify m ≠ ErrClass.fatal := by
  have h1 : isTransientMsg m = true := (matchesAnyKeyword_iff _ _).mpr ht
  constructor
  · rw [classify, if_pos h1]
  · rw [classify, if_pos h1]
    decide

/-- Witness for C6 at a message containing both quota and api key. -/
theorem C6_overlap_resolved_transient_witness :
    classify "quota exceeded for this api key" = ErrClass.transient ∧
    classify "quota exceeded for this api key" ≠ ErrClass.fatal :=
  C6_overlap_resolved_transient "quota exceeded for this api key"
    ((matchesAnyKeyword_iff _ _).mp (by decide))
    ((matchesAnyKeyword_iff _ _).mp (by decide))

/-- Unfolding step of the sequential pipeline on a failing stage. -/
theorem runSequential_cons_error {invoke : StageSpec → List (String × String) → Except PyErr String}
    {st : StageSpec} {e : PyErr} {rest : List StageSpec}
    {res : List (String × String)} {log : List String}
    (h : invoke st (stageContext st res) = Except.error e) :
    runSequential invoke (st :: rest) res log
      = ⟨log ++ [st.name], res, Except.error e⟩ := by
  rw [runSequential, h]

/-- Unfolding step of the sequential pipeline on a succeeding stage. -/
theorem runSequential_cons_ok {invoke : StageSpec → List (String × String) → Except PyErr String}
    {st : StageSpec} {out : String} {rest : List StageSpec}
    {res : List (String × String)} {log : List String}
    (h : invoke st (stageContext st res) = Except.ok out) :
    runSequential invoke (st :: rest) res log
      = runSequential invoke rest (res ++ [(st.name, out)]) (log ++ [st.name]) := by
  rw [runSequential, h]

/-- A failing sequential execution invoked exactly the stages up to and
including the first failing one, recorded the outputs of the preceding
stages, and surfaced exactly the error that stage produced. -/
theorem runSequential_error_charact
    (invoke : StageSpec → List (String × String) → Except PyErr String) (e : PyErr)
    (stages : List StageSpec) :
    ∀ (res : List (String × String)) (log : List String),
      (runSequential invoke stages res log).outcome = Except.error e →
      ∃ pre st post outs,
        stages = pre ++ st :: post ∧
        outs.length = pre.length ∧
        (runSequential invoke stages res log).results
          = res ++ List.zip (pre.map StageSpec.name) outs ∧
        (runSequential invoke stages res log).invoked
          = log ++ pre.map StageSpec.name ++ [st.name] ∧
        invoke st (stageContext st ((runSequential invoke stages res log).results))
          = Except.error e := by
  induction stages with
  | nil =>
    intro res log h
    simp [runSequential] at h
  | cons st rest ih =>
    intro res log h
    rcases hinv : invoke st (stageContext st res) with e' | out
    · rw [runSequential_cons_error hinv] at h ⊢
      have he : e' = e := by
        simpa using h
      subst he
      refine ⟨[], st, rest, [], rfl, rfl, by simp, by simp, ?_⟩
      simpa using hinv
    · rw [runSequential_cons_ok hinv] at h ⊢
      obtain ⟨pre, st', post, outs, hst, hlen, hres, hinvk, hfail⟩ :=
        ih (res ++ [(st.name, out)]) (log ++ [st.name]) h
      refine ⟨st :: pre, st', post, out :: outs, by rw [hst]; rfl, by simp [hlen],
        ?_, ?_, hfail⟩
      · rw [hres]
        simp
      · rw [hinvk]
        simp

/-- Claim C4: when a stage of the pipeline fails, execution aborts at that
stage — the invoked stages are exactly the preceding ones plus the failing
stage, in order, with no skipping — and the raw failure is propagated
unchanged to the caller. -/
theorem C4_pipeline_aborts_on_failure
    (invoke : StageSpec → List (String × String) → Except PyErr String)
    (stages : List StageSpec) (e : PyErr)
    (h : (runPipeline invoke stages).outcome = Except.error e) :
    ∃ pre st post outs,
      stages = pre ++ st :: post ∧
      outs.length = pre.length ∧
      (runPipeline invoke stages).results = List.zip (pre.map StageSpec.name) outs ∧
      (runPipeline invoke stages).invoked = pre.map StageSpec.name ++ [st.name] ∧
      invoke st (stageContext st ((runPipeline invoke stages).results))
        = Except.error e := by
  obtain ⟨pre, st, post, outs, h1, h2, h3, h4, h5⟩ :=
    runSequential_error_charact invoke e stages [] [] h
  exact ⟨pre, st, post, outs, h1, h2, by simpa using h3, by simpa using h4, h5⟩

/-- Witness for C4: a three-stage chain whose second stage fails. -/
theorem C4_pipeline_aborts_on_failure_witness :
    ∃ pre st post outs,
      chainStagesW = pre ++ st :: post ∧
      outs.length = pre.length ∧
      (runPipeline invokeFailAtResearch chainStagesW).results
        = List.zip (pre.map StageSpec.name) outs ∧
      (runPipeline invokeFailAtResearch chainStagesW).invoked
        = pre.map StageSpec.name ++ [st.name] ∧
      invokeFailAtResearch st
        (stageContext st ((runPipeline invokeFailAtResearch chainStagesW).results))
        = Except.error (PyErr.exception "boom") :=
  C4_pipeline_aborts_on_failure invokeFailAtResearch chainStagesW
    (PyErr.exception "boom") (by rfl)

/-- Claim C5: a successful run executes exactly the three stages analyze,
research, evaluate in order; analyze is invoked with no prior context,
research with the recorded output of analyze, evaluate with the recorded
outputs of both; and the final value is the output of evaluate. -/
theorem C5_three_stage_chain
    (invoke : StageSpec → List (String × String) → Except PyErr String)
    (analyzeTemplate : String → String)
    (business_requirement researchDesc evaluateDesc analyzeExp researchExp evaluateExp : String)
    (finalOut : String)
    (h : (runPipeline invoke (crewTasks analyzeTemplate business_requirement
          researchDesc evaluateDesc analyzeExp researchExp evaluateExp)).outcome
        = Except.ok finalOut) :
    ∃ o1 o2 o3,
      invoke ⟨"analyze", analyzeTemplate business_requirement, analyzeExp, []⟩ []
        = Except.ok o1 ∧
      invoke ⟨"research", researchDesc, researchExp, ["analyze"]⟩ [("analyze", o1)]
        = Except.ok o2 ∧
      invoke ⟨"evaluate", evaluateDesc, evaluateExp, ["analyze", "research"]⟩
        [("analyze", o1), ("research", o2)] = Except.ok o3 ∧
      (runPipeline invoke (crewTasks analyzeTemplate business_requirement
          researchDesc evaluateDesc analyzeExp researchExp evaluateExp)).invoked
        = ["analyze", "research", "evaluate"] ∧
      (runPipeline invoke (crewTasks analyzeTemplate business_requirement
          researchDesc evaluateDesc analyzeExp researchExp evaluateExp)).results
        = [("analyze", o1), ("research", o2), ("evaluate", o3)] ∧
      finalOut = o3 := by
  have c0 : stageContext ⟨"analyze", analyzeTemplate business_requirement, analyzeExp, []⟩
      ([] : List (String × String)) = [] := rfl
  rw [runPipeline, crewTasks] at h ⊢
  rcases h1 : invoke ⟨"analyze", analyzeTemplate business_requirement, analyzeExp, []⟩
      (stageContext ⟨"analyze", analyzeTemplate business_requirement, analyzeExp, []⟩ [])
      with e1 | o1
  · rw [runSequential_cons_error h1] at h
    simp at h
  · rw [runSequential_cons_ok h1] at h
    simp only [List.nil_append] at h
    have c1 : stageContext ⟨"research", researchDesc, researchExp, ["analyze"]⟩
        [("analyze", o1)] = [("analyze", o1)] := rfl
    rcases h2 : invoke ⟨"research", researchDesc, researchExp, ["analyze"]⟩
        (stageContext ⟨"research", researchDesc, researchExp, ["analyze"]⟩ [("analyze", o1)])
        with e2 | o2
    · rw [runSequential_cons_error h2] at h
      simp at h
    · rw [runSequential_cons_ok h2] at h
      simp only [List.cons_append, List.nil_append] at h
      have c2 : stageContext ⟨"evaluate", evaluateDesc, evaluateExp, ["analyze", "research"]⟩
          [("analyze", o1), ("research", o2)] = [("analyze", o1), ("research", o2)] := rfl
      rcases h3 : invoke ⟨"evaluate", evaluateDesc, evaluateExp, ["analyze", "research"]⟩
          (stageContext ⟨"evaluate", evaluateDesc, evaluateExp, ["analyze", "research"]⟩
            [("analyze", o1), ("research", o2)])
          with e3 | o3
      · rw [runSequential_cons_error h3] at h
        simp at h
      · rw [runSequential_cons_ok h3] at h
        simp only [List.cons_append, List.nil_append] at h
        rw [runSequential] at h
        simp only [lastOutput] at h
        refine ⟨o1, o2, o3, by rw [← c0]; exact h1, by rw [← c1]; exact h2,
          by rw [← c2]; exact h3, ?_, ?_, ?_⟩
        · rw [runSequential_cons_ok h1]
          simp only [List.nil_append]
          rw [runSequential_cons_ok h2]
          simp only [List.cons_append, List.nil_append]
          rw [runSequential_cons_ok h3]
          simp only [List.cons_append, List.nil_append]
          rw [runSequential]
        · rw [runSequential_cons_ok h1]
          simp only [List.nil_append]
          rw [runSequential_cons_ok h2]
          simp only [List.cons_append, List.nil_append]
          rw [runSequential_cons_ok h3]
          simp only [List.cons_append, List.nil_append]
          rw [runSequential]
        · simpa using h.symm

/-- Witness for C5 with a stub model echoing the stage name. -/
theorem C5_three_stage_chain_witness :
    ∃ o1 o2 o3,
      invokeEcho ⟨"analyze", "T:req", "ea", []⟩ [] = Except.ok o1 ∧
      invokeEcho ⟨"research", "rd", "er", ["analyze"]⟩ [("analyze", o1)] = Except.ok o2 ∧
      invokeEcho ⟨"evaluate", "ed", "ee", ["analyze", "research"]⟩
        [("analyze", o1), ("research", o2)] = Except.ok o3 ∧
      (runPipeline invokeEcho (crewTasks (fun r => "T:" ++ r) "req"
          "rd" "ed" "ea" "er" "ee")).invoked
        = ["analyze", "research", "evaluate"] ∧
      (runPipeline invokeEcho (crewTasks (fun r => "T:" ++ r) "req"
          "rd" "ed" "ea" "er" "ee")).results
        = [("analyze", o1), ("research", o2), ("evaluate", o3)] ∧
      "evaluate-out" = o3 :=
  C5_three_stage_chain invokeEcho (fun r => "T:" ++ r) "req" "rd" "ed" "ea" "er" "ee"
    "evaluate-out" (by rfl)

/-- A string with a non-whitespace character does not strip to empty. -/
theorem pyStrip_ne_empty_of_mem {s : String} {c : Char}
    (hc : c ∈ s.data) (hns : pyIsSpace c = false) : pyStrip s ≠ "" := by
  intro hemp
  have hall := (pyStrip_eq_empty_iff s).mp hemp
  rw [hall c hc] at hns
  cases hns

/-- The empty-result check of the `/analyze` handler succeeds on a
non-blank result. -/
theorem analyzeHandle_ok_of_strip_ne {s : String} (h : pyStrip s ≠ "") :
    analyzeHandle (Except.ok s) = Except.ok s := by
  simp only [analyzeHandle]
  rw [if_neg]
  rintro (rfl | hh)
  · exact h rfl
  · exact h hh

/-- The warning string of `OpenSourceCrew.run` is never blank. -/
theorem serviceUnavailableMsg_strip_ne (m : String) :
    pyStrip (serviceUnavailableMsg m) ≠ "" := by
  refine pyStrip_ne_empty_of_mem (c := '⚠') ?_ (by decide)
  show '⚠' ∈ (serviceUnavailablePre ++ m).data
  have : (serviceUnavailablePre ++ m).data = serviceUnavailablePre.data ++ m.data := rfl
  rw [this]
  exact List.mem_append_left _ (by decide)

/-- The generic error string of `OpenSourceCrew.run` is never blank. -/
theorem executionErrorMsg_strip_ne (m : String) :
    pyStrip (executionErrorMsg m) ≠ "" := by
  refine pyStrip_ne_empty_of_mem (c := '❌') ?_ (by decide)
  show '❌' ∈ (executionErrorPre ++ m ++ "\n\nPlease check your API key and try again.").data
  have : (executionErrorPre ++ m ++ "\n\nPlease check your API key and try again.").data
      = executionErrorPre.data ++ m.data
        ++ "\n\nPlease check your API key and try again.".data := by
    show (executionErrorPre.data ++ m.data) ++ _ = _
    rw [List.append_assoc]
  rw [this]
  exact List.mem_append_left _ (List.mem_append_left _ (by decide))

/-- Claim C7: a submitted requirement is accepted iff its raw length is
between 10 and 2000 and it is non-blank after stripping, the accepted value
is the stripped string, and the boundary inputs behave as stated
(9 rejected, 10 accepted, 2000 accepted, 2001 rejected, whitespace-only
rejected). -/
theorem C7_requirement_validation :
    (∀ s t, validateBusinessRequirement s = some t ↔
      (10 ≤ s.length ∧ s.length ≤ 2000 ∧ pyStrip s ≠ "" ∧ t = pyStrip s)) ∧
    validateBusinessRequirement (aString 9) = none ∧
    validateBusinessRequirement (aString 10) = some (aString 10) ∧
    validateBusinessRequirement (aString 2000) = some (aString 2000) ∧
    validateBusinessRequirement (aString 2001) = none ∧
    validateBusinessRequirement "          " = none := by
  have hin : ∀ n, 10 ≤ n → n ≤ 2000 →
      validateBusinessRequirement (aString n) = some (aString n) := by
    intro n hn1 hn2
    have h1 : ¬((aString n).length < 10 ∨ 2000 < (aString n).length) := by
      rw [aString_length]
      omega
    have h2 : ¬(aString n = "" ∨ pyStrip (aString n) = "") := by
      rw [pyStrip_aString]
      push_neg
      exact ⟨aString_ne_empty n (by omega), aString_ne_empty n (by omega)⟩
    rw [validateBusinessRequirement, if_neg h1, if_neg h2, pyStrip_aString]
  have hout : ∀ n, (n < 10 ∨ 2000 < n) →
      validateBusinessRequirement (aString n) = none := by
    intro n hn
    have h1 : (aString n).length < 10 ∨ 2000 < (aString n).length := by
      rw [aString_length]
      exact hn
    rw [validateBusinessRequirement, if_pos h1]
  refine ⟨?_, hout 9 (by omega), hin 10 (by omega) (by omega),
    hin 2000 (by omega) (by omega), hout 2001 (by omega), by decide⟩
  intro s t
  rw [validateBusinessRequirement]
  split_ifs with h1 h2
  · constructor
    · intro h
      exact absurd h (by simp)
    · rintro ⟨ha, hb, -, -⟩
      rcases h1 with h1 | h1 <;> omega
  · constructor
    · intro h
      exact absurd h (by simp)
    · rintro ⟨-, -, hst, -⟩
      rcases h2 with rfl | h2
      · exact hst rfl
      · exact hst h2
  · push_neg at h1 h2
    constructor
    · intro h
      exact ⟨by omega, by omega, h2.2, (Option.some.inj h).symm⟩
    · rintro ⟨-, -, -, rfl⟩
      rfl

/-- Claim C8 counterexample: an auth-classified failure from the crew
surfaces as a `ValueError` and is mapped by the `/analyze` handler to
HTTP 400, not the 500 the claim states. -/
theorem C8_auth_maps_to_400 :
    analyzeEndpoint (Except.error (PyErr.exception "Invalid api key"))
      = Except.error ⟨400, authErrorMsg "Invalid api key"⟩ ∧
    (400 : Nat) ≠ 500 :=
  ⟨rfl, by decide⟩

/-- Claim C8 as amended: a `ValueError` (which is how the crew reports auth
failures) maps to 400; a transient-classified failure inside the crew is
converted to a returned string and yields an HTTP 200 success; only
non-ValueError exceptions reaching the handler directly are mapped by
keyword — transient to 503 and auth to 500 — and those two messages are
distinct. -/
theorem C8_amended_mapping :
    (∀ m, analyzeHandle (Except.error (PyErr.valueError m)) = Except.error ⟨400, m⟩) ∧
    (∀ m, isTransientMsg m = false → isAuthMsg m = true →
      analyzeEndpoint (Except.error (PyErr.exception m))
        = Except.error ⟨400, authErrorMsg m⟩) ∧
    (∀ m, isTransientMsg m = true →
      ∃ s, analyzeEndpoint (Except.error (PyErr.exception m)) = Except.ok s) ∧
    (∀ m, isApiTransientMsg m = true →
      analyzeHandle (Except.error (PyErr.exception m))
        = Except.error ⟨503, serviceUnavailableDetail⟩) ∧
    (∀ m, isApiTransientMsg m = false → isApiAuthMsg m = true →
      analyzeHandle (Except.error (PyErr.exception m))
        = Except.error ⟨500, invalidKeyDetail⟩) ∧
    serviceUnavailableDetail ≠ invalidKeyDetail := by
  refine ⟨fun m => rfl, ?_, ?_, ?_, ?_, by decide⟩
  · intro m ht ha
    rw [analyzeEndpoint]
    have hr : crewRunOnce (Except.error (PyErr.exception m))
        = Except.error (PyErr.valueError (authErrorMsg m)) := by
      simp [crewRunOnce, execute_crew, errMsg, ht, ha]
    rw [hr]
    rfl
  · intro m ht
    rw [analyzeEndpoint]
    have hr : crewRunOnce (Except.error (PyErr.exception m))
        = if isRunTransientMsg m then Except.ok (serviceUnavailableMsg m)
          else Except.ok (executionErrorMsg m) := by
      simp [crewRunOnce, execute_crew, errMsg, ht]
    rcases hrt : isRunTransientMsg m with _ | _
    · rw [hr, if_neg (by simp [hrt])]
      exact ⟨executionErrorMsg m,
        analyzeHandle_ok_of_strip_ne (executionErrorMsg_strip_ne m)⟩
    · rw [hr, if_pos hrt]
      exact ⟨serviceUnavailableMsg m,
        analyzeHandle_ok_of_strip_ne (serviceUnavailableMsg_strip_ne m)⟩
  · intro m h
    simp only [analyzeHandle, handleGenericException]
    rw [if_pos h]
  · intro m ht ha
    simp only [analyzeHandle, handleGenericException]
    rw [if_neg (by simp [ht]), if_pos ha]

/-- Witness for the amended C8 at concrete messages for every branch. -/
theorem C8_amended_mapping_witness :
    analyzeHandle (Except.error (PyErr.valueError "boom")) = Except.error ⟨400, "boom"⟩ ∧
    analyzeEndpoint (Except.error (PyErr.exception "No api key set"))
      = Except.error ⟨400, authErrorMsg "No api key set"⟩ ∧
    (∃ s, analyzeEndpoint (Except.error (PyErr.exception "quota exceeded")) = Except.ok s) ∧
    analyzeHandle (Except.error (PyErr.exception "server returned 503"))
      = Except.error ⟨503, serviceUnavailableDetail⟩ ∧
    analyzeHandle (Except.error (PyErr.exception "authentication failed"))
      = Except.error ⟨500, invalidKeyDetail⟩ ∧
    serviceUnavailableDetail ≠ invalidKeyDetail :=
  ⟨C8_amended_mapping.1 "boom",
   C8_amended_mapping.2.1 "No api key set" (by decide) (by decide),
   C8_amended_mapping.2.2.1 "quota exceeded" (by decide),
   C8_amended_mapping.2.2.2.1 "server returned 503" (by decide),
   C8_amended_mapping.2.2.2.2.1 "authentication failed" (by decide) (by decide),
   C8_amended_mapping.2.2.2.2.2⟩

/-- Claim C9 counterexample: on an empty crew result the `/analyze` handler
fails with HTTP 503, not the 500 the claim states — the internally raised
500 HTTPException is caught by the handler's own generic clause, whose
string form contains the words rate limit. -/
theorem C9_empty_result_maps_to_503 :
    analyzeHandle (Except.ok "") = Except.error ⟨503, serviceUnavailableDetail⟩ ∧
    (503 : Nat) ≠ 500 :=
  ⟨rfl, by decide⟩

/-- Claim C9 as amended: the endpoint reports success exactly when the run
result is non-blank, returning the result itself; a blank result makes it
fail, but with HTTP 503 (the internal 500 HTTPException is remapped by the
generic handler because its string form contains the words rate limit). -/
theorem C9_success_iff_nonblank (s : String) :
    (pyStrip s ≠ "" → analyzeHandle (Except.ok s) = Except.ok s) ∧
    (pyStrip s = "" → analyzeHandle (Except.ok s)
      = Except.error ⟨503, serviceUnavailableDetail⟩) := by
  constructor
  · exact fun h => analyzeHandle_ok_of_strip_ne h
  · intro he
    simp only [analyzeHandle]
    rw [if_pos (Or.inr he)]
    rfl

/-- Witness for the amended C9 at a non-blank and a blank result. -/
theorem C9_success_iff_nonblank_witness :
    analyzeHandle (Except.ok "final report") = Except.ok "final report" ∧
    analyzeHandle (Except.ok " ") = Except.error ⟨503, serviceUnavailableDetail⟩ :=
  ⟨(C9_success_iff_nonblank "final report").1 (by decide),
   (C9_success_iff_nonblank " ").2 (by decide)⟩

/-- Claim C10 counterexample: with an empty-string `gemini_api_key` argument
— an argument that IS supplied — and an empty environment, construction
still raises the `ValueError` and does not set the environment variables,
because the code tests Python truthiness, not argument presence. -/
theorem C10_empty_key_still_raises :
    setup_environment (some "") ⟨none, none⟩
      = Except.error (PyErr.valueError
          "Gemini API key is required. Please provide it through the UI") ∧
    setup_environment (some "") ⟨none, none⟩
      ≠ Except.ok ⟨some "", some ""⟩ :=
  ⟨rfl, fun h => Except.noConfusion h⟩

/-- Claim C10 as amended: construction raises `ValueError` exactly when the
`gemini_api_key` argument is falsy (absent or empty) and both environment
variables are falsy (unset or empty); whenever a non-empty key is supplied,
both `GOOGLE_API_KEY` and `GEMINI_API_KEY` are set to it. -/
theorem C10_truthiness_env_setup :
    (∀ arg env, (∃ m, setup_environment arg env
        = Except.error (PyErr.valueError m)) ↔
      (pyTruthyOpt arg = false ∧ pyTruthyOpt env.google = false ∧
        pyTruthyOpt env.gemini = false)) ∧
    (∀ s env, s ≠ "" →
      setup_environment (some s) env = Except.ok ⟨some s, some s⟩) := by
  constructor
  · intro arg env
    rw [setup_environment]
    split_ifs with h1 h2
    · constructor
      · rintro ⟨m, hm⟩
        exact hm.elim
      · rintro ⟨hf, -, -⟩
        simp [hf] at h1
    · simp only [Bool.and_eq_true, Bool.not_eq_true'] at h2
      have h1f : pyTruthyOpt arg = false := by
        revert h1
        cases pyTruthyOpt arg <;> simp
      constructor
      · intro
        exact ⟨h1f, h2.1, h2.2⟩
      · intro
        exact ⟨"Gemini API key is required. Please provide it through the UI", rfl⟩
    · constructor
      · rintro ⟨m, hm⟩
        exact hm.elim
      · rintro ⟨-, hg, hm⟩
        simp only [Bool.and_eq_true, Bool.not_eq_true'] at h2
        exact (h2 ⟨hg, hm⟩).elim
  · intro s env hs
    rw [setup_environment, if_pos]
    show pyTruthyOpt (some s) = true
    simp [pyTruthyOpt, hs]

/-- Witness for the amended C10: a non-empty key is installed in both
variables, and an absent key with an empty environment raises. -/
theorem C10_truthiness_env_setup_witness :
    setup_environment (some "gm-key-1") ⟨none, none⟩
      = Except.ok ⟨some "gm-key-1", some "gm-key-1"⟩ ∧
    (∃ m, setup_environment none ⟨none, none⟩
      = Except.error (PyErr.valueError m)) :=
  ⟨C10_truthiness_env_setup.2 "gm-key-1" ⟨none, none⟩ (by decide),
   (C10_truthiness_env_setup.1 none ⟨none, none⟩).mpr ⟨rfl, rfl, rfl⟩⟩
